import Mathlib

/-!
Verification of the AirBalticCard scraping client
(custom_components/airbalticcard) against its specification.

The development shallowly embeds the relevant Python code:

* Python string operations are modelled over the character list
  underlying a Lean `String` (`Char.toLower` approximates the ASCII
  fragment of `str.lower`, which is all the code relies on).
* Parsed HTML (the BeautifulSoup document) is modelled as a tree of
  element and text nodes (`Node`/`Forest`); the BeautifulSoup search
  helpers used by the code (`find`, `find_all`, `get_text`, `.string`,
  attribute lookup, multi-valued `class` matching) are given as
  recursive functions over that tree in document (preorder) order.
* A `Page` carries both the raw HTML string and its parsed tree, since
  `_is_logged_in` mixes tree queries with a raw substring fallback.
* The async HTTP layer is modelled by an oracle `env : Nat → Resp`
  giving the response to the k-th HTTP request of one API call; the
  client methods become pure functions from the oracle and the session
  state to a result, the final state, and the list of requests made.
* Python exceptions `ConnectionError`/`ValueError` become the error
  codes `ApiError.connectError`/`ApiError.authError` (the config flow
  maps exactly these to its CannotConnect/InvalidAuth).
-/

/-! ### Python string primitives (over `List Char`) -/

/-- Python `sub in s` on character lists (`needle` is the first argument). -/
def containsSub (needle : List Char) : List Char → Bool
  | [] => needle.isEmpty
  | c :: rest => if needle.isPrefixOf (c :: rest) then true else containsSub needle rest

/-- Python `str.lower` (ASCII fragment). -/
def lowerL (l : List Char) : List Char := l.map Char.toLower

/-- Python `str.strip()`: drop whitespace from both ends. -/
def stripL (l : List Char) : List Char :=
  ((l.dropWhile Char.isWhitespace).reverse.dropWhile Char.isWhitespace).reverse

/-- Python `str.replace(pat, rep)` for a non-empty `pat`: replace all
non-overlapping occurrences left to right in a single pass.  (For an
empty `pat`, which the code never uses, this is the identity.) -/
def replaceL (pat rep : List Char) : List Char → List Char
  | [] => []
  | c :: rest =>
    if pat ≠ [] ∧ pat.isPrefixOf (c :: rest) then
      rep ++ replaceL pat rep ((c :: rest).drop pat.length)
    else c :: replaceL pat rep rest
termination_by l => l.length
decreasing_by
  · simp only [List.length_drop, List.length_cons]
    have hp : 1 ≤ pat.length := by
      rename_i h
      cases pat with
      | nil => exact absurd rfl h.1
      | cons a b => simp
    omega
  · simp

/-- Python `str.split()` (no argument): split on runs of whitespace,
producing no empty words.  The accumulator holds the current word
reversed. -/
def splitWsAux (acc : List Char) : List Char → List (List Char)
  | [] => if acc.isEmpty then [] else [acc.reverse]
  | c :: rest =>
    if c.isWhitespace then
      if acc.isEmpty then splitWsAux [] rest else acc.reverse :: splitWsAux [] rest
    else splitWsAux (c :: acc) rest

def splitWsL (l : List Char) : List (List Char) := splitWsAux [] l

/-! String-level wrappers. -/

def pyLower (s : String) : String := ⟨lowerL s.data⟩

def pyStrip (s : String) : String := ⟨stripL s.data⟩

/-- Python `needle in hay`. -/
def pyContains (hay needle : String) : Bool := containsSub needle.data hay.data

def pyStartswith (s pre : String) : Bool := pre.data.isPrefixOf s.data

def pyReplace (s pat rep : String) : String := ⟨replaceL pat.data rep.data s.data⟩

/-- Python `a or b` for an optional string: `b` when `a` is `None` or
the empty string (both falsy). -/
def pyOrD (o : Option String) (d : String) : String :=
  match o with
  | none => d
  | some s => if s = "" then d else s

/-! ### Parsed HTML model (the BeautifulSoup document) -/

mutual
/-- A node of the parsed HTML document: an element with a tag name,
attributes and children, or a text node (a NavigableString). -/
inductive Node where
  | text (s : String)
  | elem (tag : String) (attrs : List (String × String)) (children : Forest)
/-- A sequence of sibling nodes. -/
inductive Forest where
  | nil
  | cons (n : Node) (f : Forest)
end

/-- The input to `_is_logged_in`: the raw HTML text together with its
parsed tree (the code queries the tree but falls back to a substring
search on the raw text). -/
structure Page where
  raw : String
  doc : Forest

def Node.isElemNamed (tag : String) : Node → Bool
  | .elem t _ _ => t == tag
  | .text _ => false

/-- Attribute lookup on an element (`tag.get(key)` / `tag[key]`). -/
def Node.attr? : Node → String → Option String
  | .elem _ attrs _, k => attrs.lookup k
  | .text _, _ => none

/-- BeautifulSoup `class_=c` matching: the `class` attribute is
multi-valued (split on whitespace) and matches when `c` is one of the
tokens. -/
def Node.hasClassToken (n : Node) (c : String) : Bool :=
  match n.attr? "class" with
  | some v => (splitWsL v.data).contains c.data
  | none => false

mutual
/-- First node (element or string) matching `p` among a node and its
descendants, in document (preorder) order: models `soup.find`. -/
def findN (p : Node → Bool) : Node → Option Node
  | .text s => if p (.text s) then some (.text s) else none
  | .elem t a cs => if p (.elem t a cs) then some (.elem t a cs) else findF p cs
def findF (p : Node → Bool) : Forest → Option Node
  | .nil => none
  | .cons n f =>
    match findN p n with
    | some r => some r
    | none => findF p f
end

/-- Models `tag.find(...)`: search the descendants of a node (not the node
itself). -/
def findDesc (p : Node → Bool) : Node → Option Node
  | .text _ => none
  | .elem _ _ cs => findF p cs

mutual
/-- All matching nodes in document order: models `find_all`. -/
def findAllN (p : Node → Bool) : Node → List Node
  | .text s => if p (.text s) then [.text s] else []
  | .elem t a cs =>
    if p (.elem t a cs) then .elem t a cs :: findAllF p cs else findAllF p cs
def findAllF (p : Node → Bool) : Forest → List Node
  | .nil => []
  | .cons n f => findAllN p n ++ findAllF p f
end

/-- Models `tag.find_all(...)` over the descendants of a node. -/
def findAllDesc (p : Node → Bool) : Node → List Node
  | .text _ => []
  | .elem _ _ cs => findAllF p cs

mutual
/-- All NavigableStrings below a node, in document order
(`tag.strings`). -/
def nodeTexts : Node → List String
  | .text s => [s]
  | .elem _ _ cs => forestTexts cs
def forestTexts : Forest → List String
  | .nil => []
  | .cons n f => nodeTexts n ++ forestTexts f
end

def joinL : List String → String
  | [] => ""
  | s :: r => s ++ joinL r

/-- Models `tag.text` / `get_text()`: concatenation of all strings below. -/
def Node.getTextAll (n : Node) : String := joinL (nodeTexts n)

/-- Models `get_text(strip=True)`: each string stripped, empty results
skipped, joined with the empty separator. -/
def Node.getTextStrip (n : Node) : String :=
  joinL (((nodeTexts n).map pyStrip).filter (fun s => s ≠ ""))

mutual
/-- Models `tag.string`: when the node has exactly one child, that child as a
string (recursively); otherwise `None`. -/
def Node.string? : Node → Option String
  | .text s => some s
  | .elem _ _ cs => Forest.string? cs
def Forest.string? : Forest → Option String
  | .cons n .nil => Node.string? n
  | _ => none
end

/-! ### `_is_logged_in` (airbalticcard_api.py lines 70-107) -/

/-- Models `soup.find("ul", class_="woocommerce-error")`. -/
def errUl (doc : Forest) : Option Node :=
  findF (fun n => n.isElemNamed "ul" && n.hasClassToken "woocommerce-error") doc

/-- Models `soup.find("div", class_="woocommerce-error")`. -/
def errDiv (doc : Forest) : Option Node :=
  findF (fun n => n.isElemNamed "div" && n.hasClassToken "woocommerce-error") doc

/-- A `find(string=f)` filter: it accepts text nodes whose content
satisfies `f` and no element node. -/
def stringNodePred (f : String → Bool) (n : Node) : Bool :=
  match n with
  | .text s => f s
  | .elem _ _ _ => false

/-- Models `soup.find(string=lambda text: text and "incorrect" in text.lower())`. -/
def errIncorrect (doc : Forest) : Option Node :=
  findF (stringNodePred (fun s => pyContains (pyLower s) "incorrect")) doc

/-- Models `soup.find(string=lambda text: text and "invalid" in text.lower()
and "username" in text.lower())`. -/
def errInvalidUsername (doc : Forest) : Option Node :=
  findF
    (stringNodePred
      (fun s => pyContains (pyLower s) "invalid" && pyContains (pyLower s) "username"))
    doc

/-- Models `soup.find("a", string=lambda text: text and "logout" in text.lower())`. -/
def logoutTextAnchor (doc : Forest) : Option Node :=
  findF
    (fun n =>
      n.isElemNamed "a" &&
        match n.string? with
        | some s => pyContains (pyLower s) "logout"
        | none => false)
    doc

/-- Models `soup.find("a", href=lambda href: href and "logout" in href.lower())`. -/
def logoutHrefAnchor (doc : Forest) : Option Node :=
  findF
    (fun n =>
      n.isElemNamed "a" &&
        match n.attr? "href" with
        | some h => pyContains (pyLower h) "logout"
        | none => false)
    doc

/-- Models `soup.find("input", \x7b"name": "woocommerce-login-nonce"\x7d)`. -/
def nonceInput (doc : Forest) : Option Node :=
  findF
    (fun n => n.isElemNamed "input" && n.attr? "name" == some "woocommerce-login-nonce")
    doc

/-- Models `_is_logged_in`, translated clause by clause: the list of error
indicators, the two logout-anchor lookups, the login-form nonce check,
and the raw substring fallback `"logout" in html.lower()`.  (All finds
return full nodes, which are truthy in Python; the two string filters
only accept strings with a non-empty required substring, so truthiness
coincides with `isSome`.) -/
def isLoggedIn (p : Page) : Bool :=
  if ([(errUl p.doc).isSome, (errDiv p.doc).isSome,
       (errIncorrect p.doc).isSome, (errInvalidUsername p.doc).isSome].any id) then
    false
  else if (logoutTextAnchor p.doc).isSome then true
  else if (logoutHrefAnchor p.doc).isSome then true
  else if (nonceInput p.doc).isSome then false
  else pyContains (pyLower p.raw) "logout"

/-! The grouped signals named by the specification (section 4.1). -/

/-- Spec signal 1: a site error region (the code realises it as the
four WooCommerce error indicators, two by class and two by error
text). -/
def hasErrorSignal (p : Page) : Bool :=
  (errUl p.doc).isSome || (errDiv p.doc).isSome ||
    (errIncorrect p.doc).isSome || (errInvalidUsername p.doc).isSome

/-- Spec signal 2: a logout anchor, by link text or by href. -/
def hasLogoutAnchor (p : Page) : Bool :=
  (logoutTextAnchor p.doc).isSome || (logoutHrefAnchor p.doc).isSome

/-- Spec signal 3: the login-form nonce field is present. -/
def hasNonceField (p : Page) : Bool := (nonceInput p.doc).isSome

/-- Spec signal 4: case-insensitive substring search for "logout" in
the full page text. -/
def logoutFallback (p : Page) : Bool := pyContains (pyLower p.raw) "logout"

/-- Modelled from the spec: the priority cascade of the
"is authenticated" predicate as worded in the claim — error signal
first, then logout anchor, then nonce field, then the substring
fallback. -/
def specAuthCascade (p : Page) : Bool :=
  if hasErrorSignal p then false
  else if hasLogoutAnchor p then true
  else if hasNonceField p then false
  else logoutFallback p

/-! ### The dashboard parser (get_sim_cards, lines 124-179) -/

/-- One SIM entry of the returned snapshot. -/
structure SimEntry where
  number : String
  name : String
  credit : String
deriving DecidableEq

/-- The result dict of `get_sim_cards`. -/
structure Snapshot where
  account_credit : Option String
  sims : List SimEntry
deriving DecidableEq

/-- Lines 141-146: `text.replace("€", "").replace("EUR", "")
.strip().replace(",", ".")`. -/
def normalizeAccountCredit (text : String) : String :=
  pyReplace (pyStrip (pyReplace (pyReplace text "€" "") "EUR" "")) "," "."

/-- Line 165: `text.replace("€", "").replace(",", ".").strip()`. -/
def normalizeSimCredit (text : String) : String :=
  pyStrip (pyReplace (pyReplace text "€" "") "," ".")

def accountBlock? (doc : Forest) : Option Node :=
  findF (fun n => n.isElemNamed "div" && n.hasClassToken "sideTable_side") doc

def accountTitle? (block : Node) : Option Node :=
  findDesc (fun n => n.isElemNamed "div" && n.hasClassToken "sideTable_title") block

def accountCreditEl? (block : Node) : Option Node :=
  findDesc (fun n => n.isElemNamed "div" && n.hasClassToken "sideTable_text") block

/-- Lines 133-148: the account-level credit, or `None` when the block,
its title match, or its value element is absent. -/
def parseAccountCredit (doc : Forest) : Option String :=
  match accountBlock? doc with
  | none => none
  | some block =>
    match accountTitle? block with
    | none => none
    | some title =>
      if pyContains (pyLower title.getTextAll) "available credit for account" then
        match accountCreditEl? block with
        | none => none
        | some creditEl => some (normalizeAccountCredit creditEl.getTextStrip)
      else none

def simContainer? (row : Node) : Option Node :=
  findDesc (fun n => n.isElemNamed "div" && n.hasClassToken "js-label-container") row

def simLabel? (container : Node) : Option Node :=
  findDesc (fun n => n.isElemNamed "span" && n.hasClassToken "js-sim-label-value") container

/-- Lines 161-166: scan the row cells in order and normalize the first
one whose stripped text starts with the currency symbol. -/
def firstEuroCell : List Node → Option String
  | [] => none
  | td :: rest =>
    let text := td.getTextStrip
    if pyStartswith text "€" then some (normalizeSimCredit text) else firstEuroCell rest

/-- Lines 152-172, body of the row loop: `None` when the row has no
`js-label-container` (the row is skipped), otherwise the SIM entry with
the Python defaults (`""` number, `"Unnamed"` name, `"0.00"` credit). -/
def parseSimRow (row : Node) : Option SimEntry :=
  match simContainer? row with
  | none => none
  | some container =>
    let number := pyStrip ((container.attr? "data-number").getD "")
    let name :=
      match simLabel? container with
      | some labelEl => labelEl.getTextStrip
      | none => "Unnamed"
    let credit? := firstEuroCell (findAllDesc (fun n => n.isElemNamed "td") row)
    some { number := number, name := name, credit := pyOrD credit? "0.00" }

/-- The `for row in rows` loop with its `continue`. -/
def simsLoop : List Node → List SimEntry
  | [] => []
  | row :: rest =>
    match parseSimRow row with
    | none => simsLoop rest
    | some e => e :: simsLoop rest

/-- All `tr` elements of the document, in document order. -/
def trRows (doc : Forest) : List Node := findAllF (fun n => n.isElemNamed "tr") doc

/-- The parsing part of `get_sim_cards` (lines 128-179), a pure total
function of the parsed page. -/
def parseDashboard (doc : Forest) : Snapshot :=
  { account_credit := parseAccountCredit doc, sims := simsLoop (trRows doc) }

/-! ### The session client (AirBalticCardAPI) -/

/-- The failure modes surfaced by the client: Python `ConnectionError`
(mapped to CannotConnect by the config flow) and Python `ValueError`
(mapped to InvalidAuth). -/
inductive ApiError where
  | connectError (msg : String)
  | authError (msg : String)
deriving DecidableEq

def ApiError.isAuth : ApiError → Bool
  | .authError _ => true
  | .connectError _ => false

/-- The HTTP requests a call can make, in order of occurrence. -/
inductive Request where
  | getDashboard
  | getLoginPage
  | postLogin
deriving DecidableEq

/-- One HTTP response: status code and body (raw text plus parsed
tree). -/
structure Resp where
  status : Nat
  page : Page

/-- The mutable session state of `AirBalticCardAPI` relevant to the
claims: the `_logged_in` flag. -/
structure ApiState where
  loggedIn : Bool
deriving DecidableEq

/-- Models `__init__` (line 20): the flag starts `False`. -/
def initApiState : ApiState := { loggedIn := false }

/-- Outcome of one client call under a response oracle: the returned
value or raised error, the final session state, and the requests made
in order. -/
structure RunResult (α : Type) where
  result : Except ApiError α
  state : ApiState
  trace : List Request

/-- Models `_get_nonce` (lines 34-47) applied to the login-page response:
non-200 status, a missing nonce input, and a missing or empty `value`
attribute each raise `ConnectionError`; otherwise the nonce value is
returned. -/
def nonceResult (r : Resp) : Except ApiError String :=
  if r.status ≠ 200 then
    .error (.connectError ("Login page unavailable (HTTP " ++ toString r.status ++ ")"))
  else
    match nonceInput r.page.doc with
    | none => .error (.connectError "Could not retrieve login nonce from page")
    | some inp =>
      match inp.attr? "value" with
      | none => .error (.connectError "Login nonce field is empty")
      | some v =>
        if v = "" then .error (.connectError "Login nonce field is empty") else .ok v

/-- Models `login` (lines 49-68) under oracle `env`, where `n` requests were
already made by the enclosing call: GET the login page (`_get_nonce`),
then POST the credentials; a POST response that fails
`_is_logged_in` raises `ValueError`, otherwise `_logged_in` is set to
`True`. -/
def loginRun (env : Nat → Resp) (n : Nat) (st : ApiState) : RunResult Unit :=
  match nonceResult (env n) with
  | .error e => { result := .error e, state := st, trace := [.getLoginPage] }
  | .ok _nonce =>
    let r := env (n + 1)
    if isLoggedIn r.page then
      { result := .ok (), state := { loggedIn := true }, trace := [.getLoginPage, .postLogin] }
    else
      { result := .error (.authError "Invalid username or password"),
        state := st, trace := [.getLoginPage, .postLogin] }

/-- Models `_fetch_dashboard` (lines 109-122): GET the dashboard; when the
content fails `_is_logged_in`, perform `login()` and GET the dashboard
once more; when the retried content still fails the check, raise
`ValueError("Could not reestablish session after re-login")`. -/
def fetchDashboardRun (env : Nat → Resp) (st : ApiState) : RunResult Page :=
  let p1 := (env 0).page
  if isLoggedIn p1 then { result := .ok p1, state := st, trace := [.getDashboard] }
  else
    let lr := loginRun env 1 st
    match lr.result with
    | .error e => { result := .error e, state := lr.state, trace := .getDashboard :: lr.trace }
    | .ok _ =>
      let p2 := (env (1 + lr.trace.length)).page
      if isLoggedIn p2 then
        { result := .ok p2, state := lr.state,
          trace := .getDashboard :: (lr.trace ++ [.getDashboard]) }
      else
        { result := .error (.authError "Could not reestablish session after re-login"),
          state := lr.state,
          trace := .getDashboard :: (lr.trace ++ [.getDashboard]) }

/-- Models `get_sim_cards` (lines 124-179): `_fetch_dashboard`, then the pure
parsing of the returned page; no further HTTP requests. -/
def getSimCardsRun (env : Nat → Resp) (st : ApiState) : RunResult Snapshot :=
  let fr := fetchDashboardRun env st
  { result := fr.result.map (fun p => parseDashboard p.doc),
    state := fr.state, trace := fr.trace }

/-- Round trips in the counting of the claim: each dashboard GET is
one, and the login exchange (nonce GET plus credential POST) is one
when present. -/
def roundTrips (tr : List Request) : Nat :=
  (tr.filter (fun r => r == .getDashboard)).length +
    (if tr.contains .getLoginPage || tr.contains .postLogin then 1 else 0)

/-! ### Legacy unique-ID migration (init module, lines 326-347) -/

/-- Whether a call outcome is a raised `AuthError`. -/
def resultIsAuthError {α : Type} : Except ApiError α → Bool
  | .error e => e.isAuth
  | .ok _ => false

/-! ### Concrete fixtures used by witnesses and counterexamples -/

/-- A blank page: no error signal, no anchor, no nonce field, no
"logout" text — `_is_logged_in` rejects it. -/
def pageBlank : Page := { raw := "", doc := .nil }

/-- A dashboard page with a logout link — `_is_logged_in` accepts it. -/
def pageLoggedIn : Page :=
  { raw := "<a href=\"/logout\">Log out</a>",
    doc := .cons (.elem "a" [("href", "/logout")] (.cons (.text "Log out") .nil)) .nil }

/-- A login page carrying the WooCommerce nonce field. -/
def pageLoginForm : Page :=
  { raw := "<input name=\"woocommerce-login-nonce\" value=\"n0\"/>",
    doc := .cons (.elem "input" [("name", "woocommerce-login-nonce"), ("value", "n0")] .nil) .nil }

/-- A page showing a login-failure message next to a logout link. -/
def pageIncorrect : Page :=
  { raw := "<p>Your password is incorrect.</p><a href=\"/logout\">Log out</a>",
    doc :=
      .cons (.elem "p" [] (.cons (.text "Your password is incorrect.") .nil))
        (.cons (.elem "a" [("href", "/logout")] (.cons (.text "Log out") .nil)) .nil) }

/-- Oracle for the C1 witness: unauthenticated dashboard, successful
login exchange, retried dashboard again unauthenticated. -/
def envRetryFails : Nat → Resp
  | 0 => { status := 200, page := pageBlank }
  | 1 => { status := 200, page := pageLoginForm }
  | 2 => { status := 200, page := pageLoggedIn }
  | _ => { status := 200, page := pageBlank }

/-- Oracle for the C3 counterexample: unauthenticated dashboard, then
an unreachable login page (HTTP 500). -/
def envLoginDown : Nat → Resp
  | 0 => { status := 200, page := pageBlank }
  | _ => { status := 500, page := pageBlank }

/-- Oracle for the C4 counterexample: the login page answers 200 but
contains no nonce field. -/
def envNoNonce : Nat → Resp
  | _ => { status := 200, page := pageBlank }

/-- Oracle for the C10 witness: every response is the login-failure
page. -/
def envIncorrect : Nat → Resp
  | _ => { status := 500, page := pageIncorrect }

/-! ### Helper lemmas -/

theorem simsLoop_eq_filterMap (rows : List Node) :
    simsLoop rows = rows.filterMap parseSimRow := by
  induction rows with
  | nil => rfl
  | cons r rest ih =>
    unfold simsLoop
    rw [List.filterMap_cons]
    cases h : parseSimRow r <;> simp [h, ih]

theorem loginRun_trace_cases (env : Nat → Resp) (n : Nat) (st : ApiState) :
    (loginRun env n st).trace = [.getLoginPage] ∨
      (loginRun env n st).trace = [.getLoginPage, .postLogin] := by
  unfold loginRun
  rcases nonceResult (env n) with e | v
  · exact Or.inl rfl
  · dsimp only
    split <;> simp

theorem loginRun_ok_trace (env : Nat → Resp) (n : Nat) (st : ApiState) (u : Unit)
    (h : (loginRun env n st).result = .ok u) :
    (loginRun env n st).trace = [.getLoginPage, .postLogin] := by
  unfold loginRun at h ⊢
  rcases hnr : nonceResult (env n) with e | v
  · rw [hnr] at h
    simp at h
  · rw [hnr] at h
    dsimp only at h ⊢
    split at h <;> simp_all

theorem fetchDashboard_trace_cases (env : Nat → Resp) (st : ApiState) :
    (fetchDashboardRun env st).trace = [.getDashboard] ∨
      (fetchDashboardRun env st).trace = [.getDashboard, .getLoginPage] ∨
      (fetchDashboardRun env st).trace = [.getDashboard, .getLoginPage, .postLogin] ∨
      (fetchDashboardRun env st).trace =
        [.getDashboard, .getLoginPage, .postLogin, .getDashboard] := by
  unfold fetchDashboardRun
  dsimp only
  split
  · exact Or.inl rfl
  · rcases hl : (loginRun env 1 st).result with e | u
    · rcases loginRun_trace_cases env 1 st with h | h <;> simp [hl, h]
    · have h := loginRun_ok_trace env 1 st u hl
      simp only [hl, h]
      split <;> simp

/-! ### Claim theorems -/

/-- C2: every call to `get_sim_cards` performs at most 3 HTTP round
trips, counting the dashboard GET, the (optional) login exchange, and
the (optional) dashboard GET retry — and at most 4 raw HTTP requests. -/
theorem getSimCards_roundTrips_le_three (env : Nat → Resp) (st : ApiState) :
    roundTrips (getSimCardsRun env st).trace ≤ 3 ∧
      (getSimCardsRun env st).trace.length ≤ 4 := by
  have htr : (getSimCardsRun env st).trace = (fetchDashboardRun env st).trace := rfl
  rcases fetchDashboard_trace_cases env st with h | h | h | h <;>
    rw [htr, h] <;> exact ⟨by decide, by decide⟩

/-- C5: `_is_logged_in` equals the priority cascade stated by the
specification: an error signal (the four WooCommerce error indicators)
forces not-authenticated, else a logout anchor (by link text or href)
forces authenticated, else the login-form nonce field forces
not-authenticated, else the case-insensitive substring search for
"logout" over the raw page decides. -/
theorem isLoggedIn_eq_specAuthCascade (p : Page) : isLoggedIn p = specAuthCascade p := by
  unfold isLoggedIn specAuthCascade hasErrorSignal hasLogoutAnchor hasNonceField logoutFallback
  simp only [List.any_cons, List.any_nil, id_eq, Bool.or_false]
  cases h1 : (errUl p.doc).isSome <;> cases h2 : (errDiv p.doc).isSome <;>
    cases h3 : (errIncorrect p.doc).isSome <;> cases h4 : (errInvalidUsername p.doc).isSome <;>
      cases h5 : (logoutTextAnchor p.doc).isSome <;> cases h6 : (logoutHrefAnchor p.doc).isSome <;>
        simp

/-- C8: the SIM entries of the snapshot are exactly the in-order
image of the `tr` rows of the document under the row parser, which
skips rows lacking the SIM label container (`filterMap` keeps the
order of the surviving rows). -/
theorem parseDashboard_sims_order (doc : Forest) :
    (parseDashboard doc).sims = (trRows doc).filterMap parseSimRow := by
  have h : (parseDashboard doc).sims = simsLoop (trRows doc) := rfl
  rw [h, simsLoop_eq_filterMap]

/-- C1: whenever the first dashboard response fails the check, the
login exchange succeeds, and the retried dashboard response fails the
check again, `get_sim_cards` raises the reestablish `AuthError` after
exactly one re-login and one dashboard re-request (the trace is
exactly dashboard GET, login GET, login POST, dashboard GET). -/
theorem fetch_reauth_once_then_authError
    (env : Nat → Resp) (st : ApiState) (v : String)
    (h1 : isLoggedIn (env 0).page = false)
    (h2 : nonceResult (env 1) = .ok v)
    (h3 : isLoggedIn (env 2).page = true)
    (h4 : isLoggedIn (env 3).page = false) :
    (getSimCardsRun env st).result =
        .error (.authError "Could not reestablish session after re-login") ∧
      (getSimCardsRun env st).trace =
        [.getDashboard, .getLoginPage, .postLogin, .getDashboard] := by
  have hl : loginRun env 1 st =
      { result := .ok (), state := { loggedIn := true },
        trace := [.getLoginPage, .postLogin] } := by
    unfold loginRun
    rw [h2]
    dsimp only
    rw [show (1 : Nat) + 1 = 2 from rfl, h3]
    simp
  unfold getSimCardsRun fetchDashboardRun
  dsimp only
  rw [h1, hl]
  dsimp only
  rw [show (1 + ([Request.getLoginPage, Request.postLogin] : List Request).length : Nat) = 3
        from rfl,
    h4]
  simp [Except.map]

/-- Witness for C1: the concrete oracle `envRetryFails` satisfies all
four hypotheses, and the call fails as claimed after four requests. -/
theorem fetch_reauth_once_then_authError_witness :
    (getSimCardsRun envRetryFails initApiState).result =
        .error (.authError "Could not reestablish session after re-login") ∧
      (getSimCardsRun envRetryFails initApiState).trace =
        [.getDashboard, .getLoginPage, .postLogin, .getDashboard] :=
  fetch_reauth_once_then_authError envRetryFails initApiState "n0" rfl rfl rfl rfl

mutual
theorem findN_stringNodePred_isSome (f : String → Bool) :
    ∀ n : Node, (findN (stringNodePred f) n).isSome = (nodeTexts n).any f
  | .text s => by
    cases hf : f s <;> simp [findN, nodeTexts, stringNodePred, hf]
  | .elem t a cs => by
    have h := findF_stringNodePred_isSome f cs
    simp [findN, nodeTexts, stringNodePred, h]
theorem findF_stringNodePred_isSome (f : String → Bool) :
    ∀ fr : Forest, (findF (stringNodePred f) fr).isSome = (forestTexts fr).any f
  | .nil => by simp [findF, forestTexts]
  | .cons n fr => by
    have h1 := findN_stringNodePred_isSome f n
    have h2 := findF_stringNodePred_isSome f fr
    unfold findF
    cases hn : findN (stringNodePred f) n <;>
      simp_all [forestTexts, List.any_append]
end

theorem loginRun_trace_mem (env : Nat → Resp) (n : Nat) (st : ApiState) :
    ((loginRun env n st).trace.contains Request.getLoginPage) = true := by
  rcases loginRun_trace_cases env n st with h | h <;> rw [h] <;> decide

/-- C10: a page containing any text node with the substring
"incorrect" (case-insensitively) fails `_is_logged_in` even when a
logout anchor is present, and a dashboard response with such content
sends `get_sim_cards` down the re-login path (the trace contains the
login-page GET). -/
theorem incorrect_text_forces_not_loggedIn
    (p : Page) (env : Nat → Resp) (st : ApiState)
    (hinc : (forestTexts p.doc).any (fun s => pyContains (pyLower s) "incorrect") = true)
    (henv : (env 0).page = p) :
    isLoggedIn p = false ∧
      ((getSimCardsRun env st).trace.contains Request.getLoginPage) = true := by
  have herr : (errIncorrect p.doc).isSome = true := by
    rw [errIncorrect, findF_stringNodePred_isSome]
    exact hinc
  have hlog : isLoggedIn p = false := by
    unfold isLoggedIn
    simp [herr]
  refine ⟨hlog, ?_⟩
  have htr : (getSimCardsRun env st).trace = (fetchDashboardRun env st).trace := rfl
  rw [htr]
  unfold fetchDashboardRun
  dsimp only
  rw [henv, hlog]
  simp only [Bool.false_eq_true, if_false]
  rcases loginRun_trace_cases env 1 st with h | h <;>
    rcases hl : (loginRun env 1 st).result with e | u <;>
      rw [h] <;> (repeat' split) <;> rfl

/-- Witness for C10: the login-failure page `pageIncorrect` carries
both the "incorrect" message and a logout link; the predicate rejects
it and the call attempts a re-login. -/
theorem incorrect_text_forces_not_loggedIn_witness :
    isLoggedIn pageIncorrect = false ∧
      ((getSimCardsRun envIncorrect initApiState).trace.contains Request.getLoginPage) = true :=
  incorrect_text_forces_not_loggedIn pageIncorrect envIncorrect initApiState (by decide) rfl

theorem loginRun_state_cases (env : Nat → Resp) (n : Nat) (st : ApiState) :
    (loginRun env n st).state = st ∨ (loginRun env n st).state = { loggedIn := true } := by
  unfold loginRun
  rcases nonceResult (env n) with e | v
  · exact Or.inl rfl
  · dsimp only
    split <;> simp

/-- C3 (amended): the `_logged_in` flag is `False` at construction and
becomes `True` exactly when a login POST response passes the
authenticated check (a failed login leaves the state untouched); a
dashboard fetch never resets it to `False` — detected expiry triggers
a re-login without mutating the flag, so the flag is monotone. -/
theorem loggedIn_flag_lifecycle :
    initApiState.loggedIn = false ∧
      (∀ (env : Nat → Resp) (n : Nat) (st : ApiState) (u : Unit),
        ((loginRun env n st).result = .ok u →
          (loginRun env n st).state = { loggedIn := true } ∧
            isLoggedIn (env (n + 1)).page = true) ∧
        (∀ e, (loginRun env n st).result = .error e → (loginRun env n st).state = st)) ∧
      (∀ (env : Nat → Resp) (st : ApiState),
        st.loggedIn = true → (getSimCardsRun env st).state.loggedIn = true) := by
  refine ⟨rfl, ?_, ?_⟩
  · intro env n st u
    constructor
    · intro h
      unfold loginRun at h ⊢
      rcases hnr : nonceResult (env n) with e | v
      · try rw [hnr] at h
        simp at h
      · try rw [hnr] at h
        try rw [hnr]
        dsimp only at h ⊢
        cases hli : isLoggedIn (env (n + 1)).page
        · try rw [hli] at h
          simp at h
        · try rw [hli] at h
          try rw [hli]
          simp
    · intro e h
      unfold loginRun at h ⊢
      rcases hnr : nonceResult (env n) with e2 | v
      · try rw [hnr]
        rfl
      · try rw [hnr] at h
        try rw [hnr]
        dsimp only at h ⊢
        split at h <;> simp_all
  · intro env st hst
    have hstate : (getSimCardsRun env st).state = (fetchDashboardRun env st).state := rfl
    rw [hstate]
    unfold fetchDashboardRun
    dsimp only
    split
    · exact hst
    · rcases hl : (loginRun env 1 st).result with e | u <;>
        rcases loginRun_state_cases env 1 st with h | h <;>
          simp only [h] <;>
            first
              | exact hst
              | rfl
              | (split <;> first | exact hst | rfl)

/-- Witness for C3 (amended): a successful concrete login sets the
flag, and a concrete fetch from an authenticated state leaves it set. -/
theorem loggedIn_flag_lifecycle_witness :
    initApiState.loggedIn = false ∧
      ((loginRun envRetryFails 1 initApiState).state = { loggedIn := true } ∧
        isLoggedIn (envRetryFails 2).page = true) ∧
      (getSimCardsRun envRetryFails { loggedIn := true }).state.loggedIn = true :=
  ⟨loggedIn_flag_lifecycle.1,
    (loggedIn_flag_lifecycle.2.1 envRetryFails 1 initApiState ()).1 rfl,
    loggedIn_flag_lifecycle.2.2 envRetryFails { loggedIn := true } rfl⟩

/-- Counterexample to C3 as stated: starting authenticated, the
dashboard response fails the is-authenticated check (detected expiry),
the re-login attempt hits an unreachable login page and the call
raises, yet the final `_logged_in` flag is still `true` — the code
never sets the flag back to `False` on detected expiry. -/
theorem loggedIn_flag_not_reset_counterexample :
    isLoggedIn (envLoginDown 0).page = false ∧
      (getSimCardsRun envLoginDown { loggedIn := true }).result =
        .error (.connectError "Login page unavailable (HTTP 500)") ∧
      (getSimCardsRun envLoginDown { loggedIn := true }).state.loggedIn = true :=
  ⟨rfl, rfl, rfl⟩

/-- C4 (amended): a missing or empty login nonce raises
`ConnectionError` (surfaced as ConnectError), exactly like an
unreachable login page or a non-success status; `AuthError`
(`ValueError`) is raised only when the login POST response fails the
authenticated check.  Statement: classification of each `_get_nonce`
outcome, propagation of nonce errors through `login` unchanged, and
the credential-rejection case. -/
theorem login_error_classification
    (r : Resp) (env : Nat → Resp) (n : Nat) (st : ApiState) :
    (r.status ≠ 200 →
      nonceResult r =
        .error (.connectError ("Login page unavailable (HTTP " ++ toString r.status ++ ")"))) ∧
    (r.status = 200 → nonceInput r.page.doc = none →
      nonceResult r = .error (.connectError "Could not retrieve login nonce from page")) ∧
    (∀ inp, r.status = 200 → nonceInput r.page.doc = some inp →
      (inp.attr? "value" = none ∨ inp.attr? "value" = some "") →
      nonceResult r = .error (.connectError "Login nonce field is empty")) ∧
    (∀ e, nonceResult (env n) = .error e → (loginRun env n st).result = .error e) ∧
    (∀ v, nonceResult (env n) = .ok v → isLoggedIn (env (n + 1)).page = false →
      (loginRun env n st).result = .error (.authError "Invalid username or password")) := by
  refine ⟨?_, ?_, ?_, ?_, ?_⟩
  · intro hs
    unfold nonceResult
    rw [if_pos hs]
  · intro hs hni
    unfold nonceResult
    rw [hni]
    simp [hs]
  · intro inp hs hni hval
    unfold nonceResult
    rw [hni]
    rcases hval with hv | hv <;> simp [hs, hv]
  · intro e he
    unfold loginRun
    rw [he]
  · intro v hv hli
    unfold loginRun
    rw [hv]
    dsimp only
    rw [hli]
    simp

/-- Witness for C4 (amended): concrete instances of the nonce-missing
classification (status 200, no nonce field), of error propagation, and
of the 500-status classification. -/
theorem login_error_classification_witness :
    nonceResult { status := 200, page := pageBlank } =
        .error (.connectError "Could not retrieve login nonce from page") ∧
      (loginRun envNoNonce 0 initApiState).result =
        .error (.connectError "Could not retrieve login nonce from page") ∧
      nonceResult { status := 500, page := pageBlank } =
        .error (.connectError ("Login page unavailable (HTTP " ++ toString (500 : Nat) ++ ")")) :=
  ⟨(login_error_classification { status := 200, page := pageBlank } envNoNonce 0
        initApiState).2.1 rfl rfl,
    (login_error_classification { status := 200, page := pageBlank } envNoNonce 0
        initApiState).2.2.2.1 _ rfl,
    (login_error_classification { status := 500, page := pageBlank } envNoNonce 0
        initApiState).1 (by decide)⟩

/-- Counterexample to C4 as stated: with a reachable login page
(HTTP 200) whose nonce field is absent, `login` raises
`ConnectionError` (ConnectError), not `ValueError` (AuthError), so
"fails with AuthError whenever the nonce field is absent" is false of
the code. -/
theorem login_nonce_missing_not_authError_counterexample :
    (envNoNonce 0).status = 200 ∧
      nonceInput (envNoNonce 0).page.doc = none ∧
      (loginRun envNoNonce 0 initApiState).result =
        .error (.connectError "Could not retrieve login nonce from page") ∧
      resultIsAuthError (loginRun envNoNonce 0 initApiState).result = false :=
  ⟨rfl, rfl, rfl, rfl⟩

theorem firstEuroCell_eq_none (tds : List Node)
    (h : (tds.all (fun td => !(pyStartswith td.getTextStrip "€"))) = true) :
    firstEuroCell tds = none := by
  induction tds with
  | nil => rfl
  | cons td rest ih =>
    simp only [List.all_cons, Bool.and_eq_true, Bool.not_eq_true'] at h
    unfold firstEuroCell
    dsimp only
    rw [h.1]
    simp [ih h.2]

/-- C7: the parser is a total function (by construction in this
embedding) with the documented default policy: a missing account
block, a missing title, a non-matching title, or a missing value
element each leave `account_credit` absent; a matched SIM row none of
whose cells has stripped text starting with the currency symbol gets
credit `"0.00"`; a missing label span gives name `"Unnamed"`; a
missing or blank `data-number` attribute gives the empty number. -/
theorem parser_default_policy (doc : Forest) (row b container : Node) :
    (accountBlock? doc = none → (parseDashboard doc).account_credit = none) ∧
    (accountBlock? doc = some b → accountTitle? b = none →
      (parseDashboard doc).account_credit = none) ∧
    (∀ t, accountBlock? doc = some b → accountTitle? b = some t →
      pyContains (pyLower t.getTextAll) "available credit for account" = false →
      (parseDashboard doc).account_credit = none) ∧
    (∀ t, accountBlock? doc = some b → accountTitle? b = some t →
      pyContains (pyLower t.getTextAll) "available credit for account" = true →
      accountCreditEl? b = none → (parseDashboard doc).account_credit = none) ∧
    (∀ e, parseSimRow row = some e →
      ((findAllDesc (fun n => n.isElemNamed "td") row).all
        (fun td => !(pyStartswith td.getTextStrip "€"))) = true →
      e.credit = "0.00") ∧
    (simContainer? row = some container → simLabel? container = none →
      ∀ e, parseSimRow row = some e → e.name = "Unnamed") ∧
    (simContainer? row = some container →
      (container.attr? "data-number" = none ∨
        (∃ v, container.attr? "data-number" = some v ∧ stripL v.data = [])) →
      ∀ e, parseSimRow row = some e → e.number = "") := by
  have hacc : (parseDashboard doc).account_credit = parseAccountCredit doc := rfl
  refine ⟨?_, ?_, ?_, ?_, ?_, ?_, ?_⟩
  · intro h
    rw [hacc]
    unfold parseAccountCredit
    rw [h]
  · intro hb ht
    rw [hacc]
    unfold parseAccountCredit
    rw [hb]
    dsimp only
    rw [ht]
  · intro t hb ht hc
    rw [hacc]
    unfold parseAccountCredit
    rw [hb]
    dsimp only
    rw [ht]
    dsimp only
    rw [hc]
    simp
  · intro t hb ht hc hel
    rw [hacc]
    unfold parseAccountCredit
    simp [hb, ht, hc, hel]
  · intro e he hall
    unfold parseSimRow at he
    rcases hc : simContainer? row with _ | c
    · try rw [hc] at he
      simp at he
    · try rw [hc] at he
      dsimp only at he
      rw [firstEuroCell_eq_none _ hall] at he
      rw [← Option.some.inj he]
      try rfl
  · intro hc hlabel e he
    unfold parseSimRow at he
    rw [hc] at he
    dsimp only at he
    rw [hlabel] at he
    rw [← Option.some.inj he]
    try rfl
  · intro hc hnum e he
    unfold parseSimRow at he
    rw [hc] at he
    dsimp only at he
    rcases hnum with hn | ⟨v, hv, hstrip⟩
    · rw [hn] at he
      rw [← Option.some.inj he]
      try rfl
    · rw [hv] at he
      rw [← Option.some.inj he]
      show pyStrip v = ""
      unfold pyStrip
      rw [hstrip]
      try rfl

/-- Witness for C7 at concrete documents and rows: an empty document,
a block without title, a block with a non-matching title, a block with
a matching title but no value element, and a SIM row whose container
has no label span, no `data-number` attribute and no currency cell. -/
theorem parser_default_policy_witness :
    (parseDashboard Forest.nil).account_credit = none ∧
      (parseDashboard
          (.cons (.elem "div" [("class", "sideTable_side")] .nil) .nil)).account_credit = none ∧
      (parseDashboard
          (.cons
            (.elem "div" [("class", "sideTable_side")]
              (.cons (.elem "div" [("class", "sideTable_title")]
                (.cons (.text "Something else") .nil)) .nil))
            .nil)).account_credit = none ∧
      (parseDashboard
          (.cons
            (.elem "div" [("class", "sideTable_side")]
              (.cons (.elem "div" [("class", "sideTable_title")]
                (.cons (.text "Available credit for account") .nil)) .nil))
            .nil)).account_credit = none ∧
      parseSimRow
          (.elem "tr" [] (.cons (.elem "div" [("class", "js-label-container")] .nil) .nil)) =
        some { number := "", name := "Unnamed", credit := "0.00" } ∧
      ({ number := "", name := "Unnamed", credit := "0.00" } : SimEntry).credit = "0.00" ∧
      ({ number := "", name := "Unnamed", credit := "0.00" } : SimEntry).name = "Unnamed" ∧
      ({ number := "", name := "Unnamed", credit := "0.00" } : SimEntry).number = "" :=
  ⟨(parser_default_policy Forest.nil (.text "") (.text "") (.text "")).1 rfl,
    (parser_default_policy
        (.cons (.elem "div" [("class", "sideTable_side")] .nil) .nil)
        (.text "") (.elem "div" [("class", "sideTable_side")] .nil) (.text "")).2.1 rfl rfl,
    (parser_default_policy
        (.cons
          (.elem "div" [("class", "sideTable_side")]
            (.cons (.elem "div" [("class", "sideTable_title")]
              (.cons (.text "Something else") .nil)) .nil))
          .nil)
        (.text "")
        (.elem "div" [("class", "sideTable_side")]
          (.cons (.elem "div" [("class", "sideTable_title")]
            (.cons (.text "Something else") .nil)) .nil))
        (.text "")).2.2.1
      (.elem "div" [("class", "sideTable_title")] (.cons (.text "Something else") .nil))
      rfl rfl rfl,
    (parser_default_policy
        (.cons
          (.elem "div" [("class", "sideTable_side")]
            (.cons (.elem "div" [("class", "sideTable_title")]
              (.cons (.text "Available credit for account") .nil)) .nil))
          .nil)
        (.text "")
        (.elem "div" [("class", "sideTable_side")]
          (.cons (.elem "div" [("class", "sideTable_title")]
            (.cons (.text "Available credit for account") .nil)) .nil))
        (.text "")).2.2.2.1
      (.elem "div" [("class", "sideTable_title")]
        (.cons (.text "Available credit for account") .nil))
      rfl rfl rfl rfl,
    rfl,
    (parser_default_policy Forest.nil
        (.elem "tr" [] (.cons (.elem "div" [("class", "js-label-container")] .nil) .nil))
        (.text "") (.elem "div" [("class", "js-label-container")] .nil)).2.2.2.2.1
      { number := "", name := "Unnamed", credit := "0.00" } rfl rfl,
    (parser_default_policy Forest.nil
        (.elem "tr" [] (.cons (.elem "div" [("class", "js-label-container")] .nil) .nil))
        (.text "") (.elem "div" [("class", "js-label-container")] .nil)).2.2.2.2.2.1
      rfl rfl { number := "", name := "Unnamed", credit := "0.00" } rfl,
    (parser_default_policy Forest.nil
        (.elem "tr" [] (.cons (.elem "div" [("class", "js-label-container")] .nil) .nil))
        (.text "") (.elem "div" [("class", "js-label-container")] .nil)).2.2.2.2.2.2
      rfl (Or.inl rfl) { number := "", name := "Unnamed", credit := "0.00" } rfl⟩

theorem replaceL_single_cons (c : Char) (rep : List Char) (a : Char) (l : List Char) :
    replaceL [c] rep (a :: l) =
      if c = a then rep ++ replaceL [c] rep l else a :: replaceL [c] rep l := by
  rw [replaceL]
  by_cases h : c = a
  · rw [if_pos h, if_pos]
    · simp
    · refine ⟨by simp, ?_⟩
      simp [List.isPrefixOf, h]
  · rw [if_neg h, if_neg]
    intro hcon
    have := hcon.2
    simp [List.isPrefixOf] at this
    exact h this

theorem mem_of_mem_replaceL_single (d c : Char) (rep : List Char) :
    ∀ l : List Char, d ∈ replaceL [c] rep l → d ∈ l ∨ d ∈ rep := by
  intro l
  induction l with
  | nil => simp [replaceL]
  | cons a l ih =>
    rw [replaceL_single_cons]
    split
    · intro hm
      rcases List.mem_append.mp hm with h | h
      · exact Or.inr h
      · rcases ih h with h2 | h2
        · exact Or.inl (List.mem_cons_of_mem _ h2)
        · exact Or.inr h2
    · intro hm
      rcases List.mem_cons.mp hm with h | h
      · exact Or.inl (by simp [h])
      · rcases ih h with h2 | h2
        · exact Or.inl (List.mem_cons_of_mem _ h2)
        · exact Or.inr h2

theorem not_mem_replaceL_single (c : Char) (rep : List Char) (hre : c ∉ rep) :
    ∀ l : List Char, c ∉ replaceL [c] rep l := by
  intro l
  induction l with
  | nil => simp [replaceL]
  | cons a l ih =>
    rw [replaceL_single_cons]
    split
    · intro hm
      rcases List.mem_append.mp hm with h | h
      · exact hre h
      · exact ih h
    · rename_i hne
      intro hm
      rcases List.mem_cons.mp hm with h | h
      · exact hne h
      · exact ih h

theorem replaceL_single_of_not_mem (c : Char) (rep : List Char) :
    ∀ l : List Char, c ∉ l → replaceL [c] rep l = l := by
  intro l
  induction l with
  | nil => intro _; rw [replaceL]
  | cons a l ih =>
    intro h
    rw [replaceL_single_cons]
    have hca : ¬c = a := fun e => h (by simp [e])
    rw [if_neg hca, ih (fun hm => h (List.mem_cons_of_mem _ hm))]

theorem dropWhile_head?_false (p : Char → Bool) :
    ∀ (l : List Char) (x : Char), (l.dropWhile p).head? = some x → p x = false := by
  intro l
  induction l with
  | nil => intro x hx; simp [List.dropWhile] at hx
  | cons a l ih =>
    intro x hx
    by_cases h : p a = true
    · rw [List.dropWhile_cons_of_pos h] at hx
      exact ih x hx
    · rw [List.dropWhile_cons_of_neg h] at hx
      have := Option.some.inj hx
      rw [← this]
      exact Bool.not_eq_true _ |>.mp h

theorem dropWhile_of_head?_false (p : Char → Bool) (l : List Char)
    (h : ∀ x, l.head? = some x → p x = false) : l.dropWhile p = l := by
  cases l with
  | nil => rfl
  | cons a l =>
    have := h a rfl
    simp [List.dropWhile, this]

theorem dropWhile_idem (p : Char → Bool) (l : List Char) :
    (l.dropWhile p).dropWhile p = l.dropWhile p :=
  dropWhile_of_head?_false p _ (dropWhile_head?_false p l)

theorem getLast?_of_dropWhile (p : Char → Bool) (m : List Char) (x : Char)
    (h : (m.dropWhile p).getLast? = some x) : m.getLast? = some x := by
  conv_lhs => rw [← List.takeWhile_append_dropWhile (p := p) (l := m)]
  rw [List.getLast?_append, h]
  rfl

theorem mem_stripL (d : Char) (l : List Char) (h : d ∈ stripL l) : d ∈ l := by
  unfold stripL at h
  rw [List.mem_reverse] at h
  have h2 := (List.dropWhile_sublist _).subset h
  rw [List.mem_reverse] at h2
  exact (List.dropWhile_sublist _).subset h2

theorem stripL_idem (l : List Char) : stripL (stripL l) = stripL l := by
  have hm : (stripL l).dropWhile Char.isWhitespace = stripL l := by
    apply dropWhile_of_head?_false
    intro x hx
    unfold stripL at hx
    rw [List.head?_reverse] at hx
    have h2 := getLast?_of_dropWhile Char.isWhitespace _ x hx
    rw [List.getLast?_reverse] at h2
    exact dropWhile_head?_false Char.isWhitespace l x h2
  calc stripL (stripL l)
      = (((stripL l).dropWhile Char.isWhitespace).reverse.dropWhile
          Char.isWhitespace).reverse := rfl
    _ = ((stripL l).reverse.dropWhile Char.isWhitespace).reverse := by rw [hm]
    _ = stripL l := by
        rw [show (stripL l).reverse =
              List.dropWhile Char.isWhitespace
                ((List.dropWhile Char.isWhitespace l).reverse) from by
            unfold stripL
            rw [List.reverse_reverse]]
        rw [dropWhile_idem]
        unfold stripL
        rfl

/-- C6 (amended): the per-SIM credit normalization (strip the euro
sign, comma to dot, strip whitespace) is idempotent for every input
string.  (The account-credit path is not: see the counterexample.) -/
theorem normalizeSimCredit_idempotent (s : String) :
    normalizeSimCredit (normalizeSimCredit s) = normalizeSimCredit s := by
  unfold normalizeSimCredit pyStrip pyReplace
  refine congrArg String.mk ?_
  rw [show ("€" : String).data = ['€'] from rfl, show ("," : String).data = [','] from rfl,
    show ("." : String).data = ['.'] from rfl,
    show ("" : String).data = ([] : List Char) from rfl,
    show ∀ z : List Char, (String.mk z).data = z from fun _ => rfl]
  have hX : '€' ∉ replaceL ['€'] [] s.data := not_mem_replaceL_single '€' [] (by simp) s.data
  have hY : '€' ∉ replaceL [','] ['.'] (replaceL ['€'] [] s.data) := by
    intro hmem
    rcases mem_of_mem_replaceL_single '€' ',' ['.'] _ hmem with h | h
    · exact hX h
    · exact absurd (List.mem_singleton.mp h) (by decide)
  have hZ : '€' ∉ stripL (replaceL [','] ['.'] (replaceL ['€'] [] s.data)) :=
    fun hmem => hY (mem_stripL _ _ hmem)
  rw [replaceL_single_of_not_mem '€' [] _ hZ]
  have hcY : ',' ∉ replaceL [','] ['.'] (replaceL ['€'] [] s.data) :=
    not_mem_replaceL_single ',' ['.'] (by decide) _
  have hcZ : ',' ∉ stripL (replaceL [','] ['.'] (replaceL ['€'] [] s.data)) :=
    fun hmem => hcY (mem_stripL _ _ hmem)
  rw [replaceL_single_of_not_mem ',' ['.'] _ hcZ]
  exact stripL_idem _

/-- Counterexample to C6 as stated: the account-credit normalization
is not idempotent, because the removal of the substring "EUR" is a
single left-to-right pass — `"EUEURR"` normalizes to `"EUR"`, and
normalizing again yields `""`. -/
theorem normalizeAccountCredit_not_idempotent :
    normalizeAccountCredit (normalizeAccountCredit "EUEURR") ≠
      normalizeAccountCredit "EUEURR" := by
  have h1 : normalizeAccountCredit "EUEURR" = "EUR" := by
    simp [normalizeAccountCredit, pyReplace, pyStrip, replaceL, stripL]
  have h2 : normalizeAccountCredit "EUR" = "" := by
    simp [normalizeAccountCredit, pyReplace, pyStrip, replaceL, stripL]
  rw [h1, h2]
  decide
